import Mathlib

/-!
# Verification of the HomeWizard water exporter core

Shallow embedding of the poll/update/serve core of the
`homewizard-water-exporter` repository:

* `src/homewizard.rs` — `HomeWizardWaterData`, `HomeWizardError`,
  `HomeWizardClient::fetch_data`;
* `src/metrics.rs` — `Metrics::new`, `Metrics::update`, `Metrics::gather`;
* `src/main.rs` — the poll task, the shared snapshot slot
  (`Arc<RwLock<String>>`) and `metrics_handler`.

Numeric measurement values (`f64` in Rust) are modelled as rationals: the
only arithmetic the program performs on them is `Counter::reset` (set to 0)
followed by `Counter::inc_by` (add), which is exact. The textual rendering
of a number by the prometheus `TextEncoder` is abstracted by the canonical
`toString` of the rational; no proved statement depends on the digits of
that rendering.
-/

/-- The device reading deserialized from the JSON body
(`HomeWizardWaterData` in `src/homewizard.rs`). -/
structure HomeWizardWaterData where
  wifi_ssid : String
  wifi_strength : ℚ
  total_liter_m3 : ℚ
  active_liter_lpm : ℚ
  total_liter_offset_m3 : ℚ
  deriving Repr, DecidableEq

/-- The two error variants of `HomeWizardError` in `src/homewizard.rs`:
`RequestFailed(reqwest::Error)` (everything the HTTP library itself reports:
connection failures, timeouts, and body-deserialization failures, which
reqwest wraps in its own error type) and `ParseError(String)` (the variant
the code constructs itself for a non-success HTTP status). -/
inductive HomeWizardError where
  | RequestFailed (msg : String)
  | ParseError (msg : String)
  deriving Repr, DecidableEq

/-- A metric value with one `wifi_ssid` label, as stored in the `GaugeVec`
child map: an association list from the label value to the gauge value. -/
def GaugeVecState := List (String × ℚ)

/-- `GaugeVec::reset`: removes every child (label combination). -/
def GaugeVecState.reset (_ : GaugeVecState) : GaugeVecState := []

/-- `GaugeVec::with_label_values(&[k]).set(v)`: create-or-replace the child
for label value `k` and set it to `v`. -/
def GaugeVecState.setLabel (g : GaugeVecState) (k : String) (v : ℚ) : GaugeVecState :=
  match g with
  | [] => [(k, v)]
  | (k0, v0) :: rest =>
      if k0 = k then (k0, v) :: rest else (k0, v0) :: GaugeVecState.setLabel rest k v

/-- `Counter::reset` (prometheus crate): sets the counter to zero. -/
def Counter.reset (_ : ℚ) : ℚ := 0

/-- `Counter::inc_by` (prometheus crate): adds `v` to the counter. -/
def Counter.incBy (c v : ℚ) : ℚ := c + v

/-- The state of the `Metrics` struct of `src/metrics.rs`: the current
value of each registered metric instance. -/
structure Metrics where
  total_water : ℚ
  active_flow : ℚ
  water_offset : ℚ
  wifi_strength : ℚ
  meter_info : GaugeVecState

/-- `Metrics::new` registers five metrics, each starting at its zero state
(a fresh `Counter`/`Gauge` is 0, a fresh `GaugeVec` has no children). -/
def Metrics.new : Metrics :=
  { total_water := 0
    active_flow := 0
    water_offset := 0
    wifi_strength := 0
    meter_info := [] }

/-- The metric family names in the order `Metrics::new` registers them
(`src/metrics.rs` lines 25–55): total, active flow, offset, wifi strength,
meter info. -/
def registrationOrder : List String :=
  [ "homewizard_water_total_m3"
  , "homewizard_water_active_flow_lpm"
  , "homewizard_water_offset_m3"
  , "homewizard_water_wifi_strength_percent"
  , "homewizard_water_meter_info" ]

/-- The pure effect of `Metrics::update` (`src/metrics.rs` lines 67–85):
`total_water.reset(); total_water.inc_by(total)`, direct `set` on the three
gauges, and `meter_info.reset()` followed by setting the current SSID's
child to 1. -/
def Metrics.updateState (m : Metrics) (data : HomeWizardWaterData) : Metrics :=
  { total_water := Counter.incBy (Counter.reset m.total_water) data.total_liter_m3
    active_flow := data.active_liter_lpm
    water_offset := data.total_liter_offset_m3
    wifi_strength := data.wifi_strength
    meter_info := GaugeVecState.setLabel (GaugeVecState.reset m.meter_info) data.wifi_ssid 1 }

/-- `Metrics::update` returns `Result<()>`; its body contains no fallible
operation (`reset`, `inc_by`, `set` and `with_label_values` are infallible)
and it ends in `Ok(())`, so it always succeeds with the state
`Metrics.updateState`. -/
def Metrics.update (m : Metrics) (data : HomeWizardWaterData) : Except String Metrics :=
  Except.ok (m.updateState data)

/-- Metric kinds as reported in the `# TYPE` line. -/
inductive MetricType where
  | counter
  | gauge
  deriving Repr, DecidableEq

/-- One sample of a metric family: a (possibly empty) list of label
pairs and the sample value. -/
structure Sample where
  labels : List (String × String)
  value : ℚ
  deriving Repr, DecidableEq

/-- One metric family as produced by `Registry::gather`: name, help text,
type and the current samples. -/
structure MetricFamily where
  name : String
  help : String
  mtype : MetricType
  samples : List Sample
  deriving Repr, DecidableEq

/-- The families the five collectors report via `collect()`, in the order
`Metrics::new` registered them. A plain `Counter`/`Gauge` always reports
exactly one unlabeled sample; the `GaugeVec` reports one sample per child,
so its family has no samples until the first update (`Registry::gather`
drops such sample-less families, see `Metrics.gatherFamilies`). -/
def Metrics.collectedFamilies (m : Metrics) : List MetricFamily :=
  [ { name := "homewizard_water_total_m3"
      help := "Total water consumption in m³"
      mtype := .counter
      samples := [⟨[], m.total_water⟩] }
  , { name := "homewizard_water_active_flow_lpm"
      help := "Current water flow in liters per minute"
      mtype := .gauge
      samples := [⟨[], m.active_flow⟩] }
  , { name := "homewizard_water_offset_m3"
      help := "Water meter offset in m³"
      mtype := .gauge
      samples := [⟨[], m.water_offset⟩] }
  , { name := "homewizard_water_wifi_strength_percent"
      help := "WiFi signal strength percentage"
      mtype := .gauge
      samples := [⟨[], m.wifi_strength⟩] }
  , { name := "homewizard_water_meter_info"
      help := "Water meter information"
      mtype := .gauge
      samples := m.meter_info.map (fun p => ⟨[("wifi_ssid", p.1)], p.2⟩) } ]

/-- Insertion into a name-sorted family list, modelling insertion into the
`BTreeMap<String, MetricFamily>` that `Registry::gather` (prometheus crate,
`RegistryCore::gather`) accumulates families into. -/
def insertByName (f : MetricFamily) : List MetricFamily → List MetricFamily
  | [] => [f]
  | g :: gs => if f.name < g.name then f :: g :: gs else g :: insertByName f gs

/-- Sorting a family list by name: `Registry::gather` inserts every
collected family into a `BTreeMap` keyed by family name and returns the
map's contents, i.e. the families in lexicographic name order. -/
def sortByName : List MetricFamily → List MetricFamily
  | [] => []
  | f :: fs => insertByName f (sortByName fs)

/-- `Registry::gather` as called by `Metrics::gather`: collect each
registered metric's family, skip families without any samples
(`RegistryCore::gather`'s "Skip metrics without any samples" check, which
drops the `meter_info` family while the `GaugeVec` has no children), and
return the rest sorted by family name (`BTreeMap` iteration order). -/
def Metrics.gatherFamilies (m : Metrics) : List MetricFamily :=
  sortByName (m.collectedFamilies.filter (fun f => !f.samples.isEmpty))

/-- One line of the text exposition format, at the granularity the claims
talk about: a `# HELP` line, a `# TYPE` line, or one sample line. -/
inductive Line where
  | helpLine (name helpText : String)
  | typeLine (name : String) (t : MetricType)
  | sample (name : String) (labels : List (String × String)) (value : ℚ)
  deriving Repr, DecidableEq

/-- The lines the `TextEncoder` emits for one family: `# HELP`, `# TYPE`,
then one line per sample. -/
def MetricFamily.lines (f : MetricFamily) : List Line :=
  Line.helpLine f.name f.help :: Line.typeLine f.name f.mtype
    :: f.samples.map (fun s => Line.sample f.name s.labels s.value)

/-- The full exposition of the registry state, as a list of lines:
families in `gather` order, each rendered by the encoder. -/
def Metrics.renderLines (m : Metrics) : List Line :=
  ((m.gatherFamilies).map MetricFamily.lines).flatten

/-- Whether a line is a sample line of the family named `n`. -/
def Line.isSampleOf (n : String) : Line → Bool
  | .sample name _ _ => name == n
  | _ => false

/-- The label part of a sample line, e.g. `\x7bwifi_ssid="Net"\x7d`
(empty for an unlabeled sample). -/
def encodeLabels : List (String × String) → String
  | [] => ""
  | ls => "\x7b" ++ String.intercalate ","
      (ls.map (fun p => p.1 ++ "=\"" ++ p.2 ++ "\"")) ++ "\x7d"

/-- The `# TYPE` keyword for a metric kind. -/
def MetricType.keyword : MetricType → String
  | .counter => "counter"
  | .gauge => "gauge"

/-- The text of one exposition line. The decimal rendering of an `f64`
sample value is abstracted by the canonical rendering of the rational. -/
def Line.text : Line → String
  | .helpLine n h => "# HELP " ++ n ++ " " ++ h ++ "\n"
  | .typeLine n t => "# TYPE " ++ n ++ " " ++ t.keyword ++ "\n"
  | .sample n ls v => n ++ encodeLabels ls ++ " " ++ toString v ++ "\n"

/-- The full exposition text: every line of `Metrics.renderLines`
concatenated, which is what the `TextEncoder` writes into the buffer. -/
def Metrics.gatherText (m : Metrics) : String :=
  String.join ((m.renderLines).map Line.text)

/-- `Metrics::gather` returns `Result<String>`; the `TextEncoder` encode of
the gathered families and the UTF-8 conversion never fail, so it always
succeeds with the exposition text. -/
def Metrics.gather (m : Metrics) : Except String String :=
  Except.ok m.gatherText

/-!
## The data source client (`src/homewizard.rs`)
-/

/-- What the HTTP layer hands back for one `GET` on the device URL: either
no response at all (connection refused, reset, timeout — a
`reqwest::Error` with message `e`), or a response with a status code and
the result of deserializing its body as `HomeWizardWaterData` (a serde
failure is surfaced as a `reqwest::Error` with message `pe`). -/
inductive HttpOutcome where
  | noResponse (e : String)
  | response (status : Nat) (body : Except String HomeWizardWaterData)

/-- `StatusCode::is_success`: the status is in the 2xx range. -/
def statusIsSuccess (s : Nat) : Bool :=
  200 ≤ s && s < 300

/-- `HomeWizardClient::fetch_data` (`src/homewizard.rs` lines 35–47):
`send().await?` propagates a transport failure as `RequestFailed`; a
non-success status short-circuits with
`ParseError(format!("HTTP status: \x7b\x7d", status))` (the status text is
abstracted to the numeric code); `json().await?` propagates a
deserialization failure as `RequestFailed`; otherwise the parsed reading
is returned. -/
def fetch_data : HttpOutcome → Except HomeWizardError HomeWizardWaterData
  | .noResponse e => Except.error (HomeWizardError.RequestFailed e)
  | .response status body =>
      if ¬ statusIsSuccess status then
        Except.error (HomeWizardError.ParseError ("HTTP status: " ++ toString status))
      else
        match body with
        | .error pe => Except.error (HomeWizardError.RequestFailed pe)
        | .ok data => Except.ok data

/-!
## The poll-and-serve orchestrator (`src/main.rs`)
-/

/-- The state the poll task and the HTTP surface share: the `Metrics`
registry and the published snapshot slot (`SharedMetrics =
Arc<RwLock<String>>`). The `RwLock` makes every access to the slot an
atomic read or write of the whole string. -/
structure PollState where
  metrics : Metrics
  slot : String

/-- Startup state (`src/main.rs` lines 40–41): a fresh registry and
`String::new()` in the shared slot. -/
def PollState.initial : PollState :=
  { metrics := Metrics.new, slot := "" }

/-- One iteration of the poll loop body (`src/main.rs` lines 56–80), as a
function of the state and this tick's fetch result: on `Ok(data)`, apply
`update` (on its error, log and `continue` without publishing), then
`gather` and on success overwrite the slot (on gather error, log and keep
the slot); on fetch `Err`, log a warning and leave the state untouched. -/
def pollStep (st : PollState) : Except HomeWizardError HomeWizardWaterData → PollState
  | .ok data =>
      match st.metrics.update data with
      | .error _ => st
      | .ok m' =>
          match m'.gather with
          | .ok text => { metrics := m', slot := text }
          | .error _ => { metrics := m', slot := st.slot }
  | .error _ => st

/-- `metrics_handler` (`src/main.rs` lines 100–105): takes a read lock on
the shared slot and returns a clone of the string; axum serves a returned
`String` with HTTP status 200. Modelled as the status/body pair. -/
def metrics_handler (sharedSlot : String) : Nat × String :=
  (200, sharedSlot)

/-- `health_handler`: always the fixed body `OK` with status 200. -/
def health_handler : Nat × String :=
  (200, "OK")

/-!
## Timer schedule of the poll task

`tokio::time::interval(d)` schedules its first tick at creation time and
each later tick one period after the previous scheduled tick, so (as long
as each loop body completes within the period) tick `n` completes at
`start + n * period`. The poll task (`src/main.rs` lines 51–57) consumes
tick 0 before entering the loop and performs fetch number `i` (0-based)
right after consuming tick `i + 1` inside the loop.
-/

/-- Completion time of tick `n` of the interval timer. -/
def tickCompletion (start period n : Nat) : Nat :=
  start + n * period

/-- Which tick the poll loop consumes immediately before its `i`-th fetch:
tick 0 is consumed on line 53 before the loop, so fetch `i` waits for
tick `i + 1`. -/
def fetchTick (i : Nat) : Nat :=
  i + 1

/-- The time at which the poll task starts its `i`-th fetch. -/
def fetchTime (start period i : Nat) : Nat :=
  tickCompletion start period (fetchTick i)

/-!
## Linearized traces of the running system

The slot lives behind a `tokio::sync::RwLock`, so every handler read and
every poller write is an atomic access to the whole string: any concurrent
execution linearizes to a sequence of poll-loop iterations and handler
reads. A trace is that linearization; the fetch result consumed by each
poll iteration is the event's argument.
-/

/-- One linearized event: a poll-loop iteration with its fetch result, or
one `metrics_handler` read of the slot. -/
inductive Event where
  | poll (r : Except HomeWizardError HomeWizardWaterData)
  | read

/-- Effect of one event on the shared state: a poll iteration runs
`pollStep`; a handler read leaves the state unchanged. -/
def stepEv (st : PollState) : Event → PollState
  | .poll r => pollStep st r
  | .read => st

/-- The shared state after running a trace from `st`. -/
def runFrom (st : PollState) : List Event → PollState
  | [] => st
  | e :: es => runFrom (stepEv st e) es

/-- The state after running a trace from startup. -/
def runTrace (tr : List Event) : PollState :=
  runFrom PollState.initial tr

/-- The value a handler read returns after the prefix `tr` of the
linearization: the slot contents at that point. -/
def readAt (tr : List Event) : String :=
  (runTrace tr).slot

/-- The successive values the poller publishes into the slot along a trace
starting at `st`, in order. -/
def publishesFrom (st : PollState) : List Event → List String
  | [] => []
  | e :: es =>
      match e with
      | .poll (.ok _) => (stepEv st e).slot :: publishesFrom (stepEv st e) es
      | _ => publishesFrom (stepEv st e) es

/-- The publishes of a trace from startup. -/
def publishes (tr : List Event) : List String :=
  publishesFrom PollState.initial tr

/-- An event that cannot publish: a failed fetch or a handler read. -/
def Event.noPublish : Event → Bool
  | .poll (.ok _) => false
  | _ => true

/-!
## Helper lemmas
-/

/-- After any update the `meter_info` `GaugeVec` has exactly one child, so
no family is sample-less and `Registry::gather` returns all five families
sorted by name: active flow, meter info, offset, total, wifi strength. -/
theorem gather_families_update_eq (m : Metrics) (d : HomeWizardWaterData) :
    (m.updateState d).gatherFamilies =
      [ { name := "homewizard_water_active_flow_lpm"
          help := "Current water flow in liters per minute"
          mtype := .gauge
          samples := [⟨[], d.active_liter_lpm⟩] }
      , { name := "homewizard_water_meter_info"
          help := "Water meter information"
          mtype := .gauge
          samples := [⟨[("wifi_ssid", d.wifi_ssid)], 1⟩] }
      , { name := "homewizard_water_offset_m3"
          help := "Water meter offset in m³"
          mtype := .gauge
          samples := [⟨[], d.total_liter_offset_m3⟩] }
      , { name := "homewizard_water_total_m3"
          help := "Total water consumption in m³"
          mtype := .counter
          samples := [⟨[], Counter.incBy (Counter.reset m.total_water) d.total_liter_m3⟩] }
      , { name := "homewizard_water_wifi_strength_percent"
          help := "WiFi signal strength percentage"
          mtype := .gauge
          samples := [⟨[], d.wifi_strength⟩] } ] := by
  simp +decide [Metrics.gatherFamilies, Metrics.collectedFamilies, Metrics.updateState,
    GaugeVecState.reset, GaugeVecState.setLabel, sortByName, insertByName]

/-- The family names `Registry::gather` emits for an arbitrary registry
state: always sorted by name; the `meter_info` family appears only when
its `GaugeVec` currently has a child. -/
theorem gatherFamilies_names (m : Metrics) :
    (m.gatherFamilies).map MetricFamily.name =
      (if m.meter_info.isEmpty then
        [ "homewizard_water_active_flow_lpm"
        , "homewizard_water_offset_m3"
        , "homewizard_water_total_m3"
        , "homewizard_water_wifi_strength_percent" ]
      else
        [ "homewizard_water_active_flow_lpm"
        , "homewizard_water_meter_info"
        , "homewizard_water_offset_m3"
        , "homewizard_water_total_m3"
        , "homewizard_water_wifi_strength_percent" ]) := by
  cases hmi : m.meter_info with
  | nil =>
    simp +decide [Metrics.gatherFamilies, Metrics.collectedFamilies, sortByName,
      insertByName, hmi]
  | cons p rest =>
    simp +decide [Metrics.gatherFamilies, Metrics.collectedFamilies, sortByName,
      insertByName, hmi]

/-- A successful fetch makes the poll body update the registry and publish
the fresh render into the slot. -/
theorem pollStep_ok (st : PollState) (d : HomeWizardWaterData) :
    pollStep st (.ok d) =
      { metrics := st.metrics.updateState d
        slot := (st.metrics.updateState d).gatherText } := rfl

/-- A failed fetch leaves the shared state untouched. -/
theorem pollStep_err (st : PollState) (e : HomeWizardError) :
    pollStep st (.error e) = st := rfl

/-- The slot after any trace holds the last published text, or the slot's
starting contents when the trace published nothing. -/
theorem slot_eq_last_publish (tr : List Event) :
    ∀ st : PollState, (runFrom st tr).slot = (publishesFrom st tr).getLastD st.slot := by
  induction tr with
  | nil => intro st; rfl
  | cons e es ih =>
    intro st
    cases e with
    | read => simpa [runFrom, publishesFrom, stepEv] using ih st
    | poll r =>
      cases r with
      | error err =>
        simpa [runFrom, publishesFrom, stepEv, pollStep_err] using ih st
      | ok d =>
        simp only [runFrom, publishesFrom, stepEv, List.getLastD_cons]
        exact ih _

/-- Every text the poller ever publishes is the full render of some
registry state. -/
theorem publish_is_gather (tr : List Event) :
    ∀ (st : PollState) (s : String), s ∈ publishesFrom st tr →
      ∃ m : Metrics, s = m.gatherText := by
  induction tr with
  | nil => intro st s hs; simp [publishesFrom] at hs
  | cons e es ih =>
    intro st s hs
    cases e with
    | read => exact ih st s (by simpa [publishesFrom, stepEv] using hs)
    | poll r =>
      cases r with
      | error err => exact ih st s (by simpa [publishesFrom, stepEv] using hs)
      | ok d =>
        simp only [publishesFrom, stepEv, List.mem_cons] at hs
        rcases hs with h | h
        · exact ⟨st.metrics.updateState d, by simp [h, pollStep_ok]⟩
        · exact ih _ s h

/-- Running a concatenated trace runs the two parts in sequence. -/
theorem runFrom_append (p q : List Event) :
    ∀ st : PollState, runFrom st (p ++ q) = runFrom (runFrom st p) q := by
  induction p with
  | nil => intro st; rfl
  | cons e es ih => intro st; simp only [List.cons_append, runFrom]; exact ih _

/-- Publishes of a concatenated trace are the publishes of the first part
followed by those of the second. -/
theorem publishesFrom_append (p q : List Event) :
    ∀ st : PollState,
      publishesFrom st (p ++ q)
        = publishesFrom st p ++ publishesFrom (runFrom st p) q := by
  induction p with
  | nil => intro st; rfl
  | cons e es ih =>
    intro st
    cases e with
    | read => simpa [publishesFrom, runFrom, stepEv] using ih _
    | poll r =>
      cases r with
      | error err => simpa [publishesFrom, runFrom, stepEv] using ih _
      | ok d =>
        simp only [List.cons_append, publishesFrom, runFrom, stepEv, List.append_eq]
        rw [ih]

/-- A trace of failed polls and reads leaves the shared state at its
starting value. -/
theorem runFrom_noPublish (tr : List Event) :
    ∀ st : PollState, (∀ e ∈ tr, e.noPublish = true) → runFrom st tr = st := by
  induction tr with
  | nil => intro st _; rfl
  | cons e es ih =>
    intro st h
    have he : e.noPublish = true := h e (List.mem_cons_self e es)
    have hes : ∀ e' ∈ es, Event.noPublish e' = true :=
      fun e' h' => h e' (List.mem_cons_of_mem e h')
    cases e with
    | read => simpa [runFrom, stepEv] using ih st hes
    | poll r =>
      cases r with
      | error err => simpa [runFrom, stepEv, pollStep_err] using ih st hes
      | ok d => simp [Event.noPublish] at he

/-!
## Claims
-/

/-- C1: applying Reading R1 then R2 to the registry leaves the
total-consumption metric's rendered value equal to applying R2 alone —
each update overwrites the absolute total rather than adding to it — so
the exposition after R2 carries exactly R2's cumulative total as the one
total-consumption sample and, when the totals differ, R1's total no
longer appears as that sample. -/
theorem C1_total_overwrite (m m' : Metrics) (r1 r2 : HomeWizardWaterData)
    (hne : r1.total_liter_m3 ≠ r2.total_liter_m3) :
    ((m.updateState r1).updateState r2).renderLines.filter
        (Line.isSampleOf "homewizard_water_total_m3")
      = (m'.updateState r2).renderLines.filter
        (Line.isSampleOf "homewizard_water_total_m3") ∧
    ((m.updateState r1).updateState r2).renderLines.filter
        (Line.isSampleOf "homewizard_water_total_m3")
      = [Line.sample "homewizard_water_total_m3" [] r2.total_liter_m3] ∧
    Line.sample "homewizard_water_total_m3" [] r1.total_liter_m3 ∉
      ((m.updateState r1).updateState r2).renderLines := by
  refine ⟨?_, ?_, ?_⟩ <;>
    simp +decide [Metrics.renderLines, gather_families_update_eq, MetricFamily.lines,
      Counter.incBy, Counter.reset, Line.isSampleOf, hne]

/-- Witness for C1: two concrete readings with totals 100 and 200. -/
theorem C1_total_overwrite_witness :
    (HomeWizardWaterData.mk "Net" 75 100 15 1).total_liter_m3 ≠
      (HomeWizardWaterData.mk "Net2" 80 200 10 2).total_liter_m3 ∧
    Line.sample "homewizard_water_total_m3" []
        (HomeWizardWaterData.mk "Net" 75 100 15 1).total_liter_m3 ∉
      ((Metrics.new.updateState (HomeWizardWaterData.mk "Net" 75 100 15 1)).updateState
        (HomeWizardWaterData.mk "Net2" 80 200 10 2)).renderLines :=
  ⟨by norm_num,
   (C1_total_overwrite Metrics.new Metrics.new
      (HomeWizardWaterData.mk "Net" 75 100 15 1)
      (HomeWizardWaterData.mk "Net2" 80 200 10 2) (by norm_num)).2.2⟩

/-- C2 (code bug): the poll task consumes the interval's immediate tick 0
before entering the loop and only fetches after awaiting the next tick, so
with the default 60-second interval the first fetch starts at t = 60, not
immediately at t = 0; consecutive fetches are one period apart. -/
theorem C2_first_fetch_delayed :
    fetchTime 0 60 0 = 60 ∧
    fetchTime 0 60 0 ≠ 0 ∧
    (∀ start period i : Nat,
      fetchTime start period (i + 1) = fetchTime start period i + period) := by
  refine ⟨rfl, by norm_num [fetchTime, tickCompletion, fetchTick], ?_⟩
  intro start period i
  simp only [fetchTime, tickCompletion, fetchTick]
  ring

/-- C3 counterexample: at a concrete registry state reached by one update
(where every family has a sample, so `gather` keeps all five), the
families `Registry::gather` returns are not in registration order:
registration starts with the total-consumption metric, but `gather` emits
the active flow family first. -/
theorem C3_registration_order_counterexample :
    ((Metrics.new.updateState
        (HomeWizardWaterData.mk "Net" 75 100 15 1)).gatherFamilies).map
      MetricFamily.name ≠ registrationOrder := by
  simp +decide [gather_families_update_eq, registrationOrder]

/-- C3 (amended): `render()` emits only the families that currently have at
least one sample, sorted lexicographically by metric name — after any
update all five (active flow, device info, calibration offset, total
consumption, signal strength); at the fresh startup state only four, the
device-info family being sample-less — because `Registry::gather` skips
sample-less families and accumulates the rest into a name-keyed ordered
map; for no registry state is the output in registration order. -/
theorem C3_gather_sorted_by_name (m : Metrics) (d : HomeWizardWaterData) :
    ((m.updateState d).gatherFamilies).map MetricFamily.name =
      [ "homewizard_water_active_flow_lpm"
      , "homewizard_water_meter_info"
      , "homewizard_water_offset_m3"
      , "homewizard_water_total_m3"
      , "homewizard_water_wifi_strength_percent" ] ∧
    (Metrics.new.gatherFamilies).map MetricFamily.name =
      [ "homewizard_water_active_flow_lpm"
      , "homewizard_water_offset_m3"
      , "homewizard_water_total_m3"
      , "homewizard_water_wifi_strength_percent" ] ∧
    (m.gatherFamilies).map MetricFamily.name ≠ registrationOrder := by
  refine ⟨?_, ?_, ?_⟩
  · rw [gather_families_update_eq]
    simp
  · simp +decide [gatherFamilies_names, Metrics.new]
  · rw [gatherFamilies_names]
    cases m.meter_info.isEmpty with
    | true => simp +decide [registrationOrder]
    | false => simp +decide [registrationOrder]

/-- C4: a response whose status is outside 2xx makes `fetch_data` fail with
the dedicated status-carrying variant (`ParseError`, the spec's
`ResponseError`), whose message carries the numeric status code, regardless
of the body; this variant is distinct from the transport variant
(`RequestFailed`, the spec's `TransportError`) that a connection failure
produces. -/
theorem C4_response_error_on_non_2xx (status : Nat) (e : String)
    (h : statusIsSuccess status = false) :
    (∀ body, fetch_data (.response status body)
        = .error (.ParseError ("HTTP status: " ++ toString status))) ∧
    fetch_data (.noResponse e) = .error (.RequestFailed e) ∧
    (∀ a b, HomeWizardError.ParseError a ≠ HomeWizardError.RequestFailed b) := by
  refine ⟨?_, rfl, ?_⟩
  · intro body
    simp [fetch_data, h]
  · intro a b hab
    cases hab

/-- Witness for C4 at status 500. -/
theorem C4_response_error_on_non_2xx_witness :
    statusIsSuccess 500 = false ∧
    fetch_data (.response 500 (.error "Internal Server Error"))
      = .error (.ParseError ("HTTP status: " ++ toString 500)) :=
  ⟨by decide,
   (C4_response_error_on_non_2xx 500 "connection refused" (by decide)).1
     (.error "Internal Server Error")⟩

/-- C5: a 2xx response whose body fails to deserialize makes `fetch_data`
fail with the same `RequestFailed` variant (the spec's `TransportError`) as
a connection failure — not a distinct parse-error kind — and such an error
is non-fatal: the poll loop leaves the shared state unchanged and goes on
to the next tick. -/
theorem C5_parse_failure_is_transport_kind (status : Nat) (pe ce : String)
    (h : statusIsSuccess status = true) :
    fetch_data (.response status (.error pe)) = .error (.RequestFailed pe) ∧
    fetch_data (.noResponse ce) = .error (.RequestFailed ce) ∧
    (∀ (st : PollState) (e : HomeWizardError), pollStep st (.error e) = st) := by
  refine ⟨?_, rfl, fun st e => rfl⟩
  simp [fetch_data, h]

/-- Witness for C5 at status 200 with a malformed body. -/
theorem C5_parse_failure_is_transport_kind_witness :
    statusIsSuccess 200 = true ∧
    fetch_data (.response 200 (.error "invalid json"))
      = .error (.RequestFailed "invalid json") :=
  ⟨by decide,
   (C5_parse_failure_is_transport_kind 200 "invalid json" "refused" (by decide)).1⟩

/-- C6: when the fetch of a poll cycle fails, the whole shared state — in
particular the published snapshot slot, byte for byte — is left exactly as
it was, and the loop simply proceeds to the next tick. -/
theorem C6_failed_fetch_preserves_snapshot (st : PollState) (e : HomeWizardError) :
    (pollStep st (.error e)).slot = st.slot ∧ pollStep st (.error e) = st :=
  ⟨rfl, rfl⟩

/-- C7: after every update, the exposition contains exactly one sample line
for the device-info metric; its single label is the `wifi_ssid` of the
reading just applied and its value is exactly 1. -/
theorem C7_info_metric_single_current_label (m : Metrics) (d : HomeWizardWaterData) :
    (m.updateState d).renderLines.filter (Line.isSampleOf "homewizard_water_meter_info")
      = [Line.sample "homewizard_water_meter_info" [("wifi_ssid", d.wifi_ssid)] 1] := by
  simp +decide [Metrics.renderLines, gather_families_update_eq, MetricFamily.lines,
    Line.isSampleOf]

/-- C8: in every linearization of the single-writer/many-reader system, a
handler read returns exactly the last fully published snapshot (the empty
initial string before any publish) — never a torn value — every published
value is the complete render of some registry state, and publishes only
accumulate along the linearization, so visibility is monotonic: a read at
an extended trace observes a publish at least as new. -/
theorem C8_snapshot_atomic_and_monotonic (p q : List Event)
    (hpq : ∃ t, p ++ t = q) :
    readAt p = (publishes p).getLastD "" ∧
    (readAt p = "" ∨ ∃ m : Metrics, readAt p = m.gatherText) ∧
    (∃ t, publishes p ++ t = publishes q) := by
  obtain ⟨t, rfl⟩ := hpq
  have h1 : readAt p = (publishes p).getLastD "" :=
    slot_eq_last_publish p PollState.initial
  refine ⟨h1, ?_, ?_⟩
  · cases hp : publishes p with
    | nil => left; rw [h1, hp]; rfl
    | cons s rest =>
      right
      have hmem : (publishes p).getLastD "" ∈ publishes p := by
        rw [hp, List.getLastD_cons]
        exact List.getLastD_mem_cons rest s
      obtain ⟨m, hm⟩ := publish_is_gather p PollState.initial _ hmem
      exact ⟨m, by rw [h1, hm]⟩
  · exact ⟨publishesFrom (runFrom PollState.initial p) t,
      (publishesFrom_append p t PollState.initial).symm⟩

/-- Witness for C8: a trace of one successful poll, extended by a read. -/
theorem C8_snapshot_atomic_and_monotonic_witness :
    readAt [Event.poll (.ok (HomeWizardWaterData.mk "Net" 75 100 15 1))]
      = (publishes [Event.poll (.ok (HomeWizardWaterData.mk "Net" 75 100 15 1))]).getLastD "" ∧
    (readAt [Event.poll (.ok (HomeWizardWaterData.mk "Net" 75 100 15 1))] = "" ∨
      ∃ m : Metrics,
        readAt [Event.poll (.ok (HomeWizardWaterData.mk "Net" 75 100 15 1))] = m.gatherText) ∧
    (∃ t, publishes [Event.poll (.ok (HomeWizardWaterData.mk "Net" 75 100 15 1))] ++ t
        = publishes [Event.poll (.ok (HomeWizardWaterData.mk "Net" 75 100 15 1)), Event.read]) :=
  C8_snapshot_atomic_and_monotonic
    [Event.poll (.ok (HomeWizardWaterData.mk "Net" 75 100 15 1))]
    [Event.poll (.ok (HomeWizardWaterData.mk "Net" 75 100 15 1)), Event.read]
    ⟨[Event.read], rfl⟩

/-- C9: before the first successful publish — in particular when every
fetch so far has failed — the shared slot still holds the empty string it
was initialized to, and `GET /metrics` answers 200 with an empty body. -/
theorem C9_empty_exposition_before_first_publish (tr : List Event)
    (h : ∀ e ∈ tr, e.noPublish = true) :
    readAt tr = "" ∧ metrics_handler (readAt tr) = (200, "") := by
  have hrun : runFrom PollState.initial tr = PollState.initial :=
    runFrom_noPublish tr PollState.initial h
  have hslot : readAt tr = "" := by
    simp only [readAt, runTrace]
    rw [hrun]
    rfl
  exact ⟨hslot, by rw [hslot]; rfl⟩

/-- Witness for C9: one failed fetch followed by a read. -/
theorem C9_empty_exposition_before_first_publish_witness :
    (∀ e ∈ [Event.poll (.error (.RequestFailed "connection refused")), Event.read],
      e.noPublish = true) ∧
    readAt [Event.poll (.error (.RequestFailed "connection refused")), Event.read] = "" :=
  ⟨by decide,
   (C9_empty_exposition_before_first_publish
      [Event.poll (.error (.RequestFailed "connection refused")), Event.read]
      (by decide)).1⟩

/-- C10: `Metrics::update` has no failing path — it always returns `Ok` with
the updated state — so the poll loop's branch that skips publishing because
the registry rejected the update is unreachable: a successful fetch always
reaches gather and publishes the fresh render. -/
theorem C10_update_never_fails (m : Metrics) (d : HomeWizardWaterData) (st : PollState) :
    m.update d = .ok (m.updateState d) ∧
    (∀ msg, m.update d ≠ .error msg) ∧
    pollStep st (.ok d)
      = { metrics := st.metrics.updateState d
          slot := (st.metrics.updateState d).gatherText } := by
  refine ⟨rfl, ?_, rfl⟩
  intro msg hmsg
  simp [Metrics.update] at hmsg
